import Mathlib

/-!
Verification of the modio client core: request dispatch and error
classification, pagination streaming, and download resolution.
The Lean definitions below embed the corresponding Rust functions from
`src/lib.rs` and `src/error.rs`.
-/

namespace Modio

/-! ## Error model (`src/error.rs`)

`ModioError` is the server error envelope (`crate::types::Error`), with the
fields used by `error.rs`: `message`, `errors` (field → message pairs) and
`error_ref`.  `u16` values are modelled as `Nat` (no arithmetic is performed
on them, so no overflow can arise). -/

structure ModioError where
  message : String
  errors : List (String × String)
  error_ref : Nat
  deriving Repr, DecidableEq

/-- The `crate::auth::Error` authentication error variants used by
`error.rs`. -/
inductive AuthError where
  | Unauthorized
  | TokenRequired
  | TermsAcceptanceRequired
  deriving Repr, DecidableEq

/-- The `Kind` enum of `error.rs`: the error kinds.  `RateLimit`'s `retry_after`
duration is modelled by its length in seconds. -/
inductive Kind where
  | Auth (e : AuthError)
  | Download
  | Validation (message : String) (errors : List (String × String))
  | RateLimit (retry_after : Nat)
  | Builder
  | Request
  | Decode
  | Status (code : Nat)
  deriving Repr, DecidableEq

/-- The sources (`BoxError`) attached by the constructors in `error.rs`:
auth errors attach themselves, `error_for_status`'s fallback attaches the
envelope.  Other sources (transport, serde) are collapsed into `other`. -/
inductive ErrSource where
  | auth (e : AuthError)
  | envelope (e : ModioError)
  | other
  deriving Repr, DecidableEq

/-- The `Error` / `Inner` pair of `error.rs`: a kind, an optional error_ref and an
optional wrapped source. -/
structure Error where
  kind : Kind
  error_ref : Option Nat
  source : Option ErrSource
  deriving Repr, DecidableEq

/-- Embeds `Error::new(kind)`. -/
def Error.new (kind : Kind) : Error :=
  { kind := kind, error_ref := none, source := none }

/-- Embeds `Error::with(source)`. -/
def Error.with (e : Error) (source : ErrSource) : Error :=
  { e with source := some source }

/-- Embeds `Error::with_error_ref(error_ref)`. -/
def Error.with_error_ref (e : Error) (error_ref : Nat) : Error :=
  { e with error_ref := some error_ref }

/-- Embeds `unauthorized(error_ref)` from `error.rs`. -/
def unauthorized (error_ref : Nat) : Error :=
  ((Error.new (.Auth .Unauthorized)).with_error_ref error_ref).with
    (.auth .Unauthorized)

/-- Embeds `terms_required()` from `error.rs`. -/
def terms_required : Error :=
  (Error.new (.Auth .TermsAcceptanceRequired)).with
    (.auth .TermsAcceptanceRequired)

/-- Embeds `decode(source)` from `error.rs`. -/
def decode (source : ErrSource) : Error :=
  (Error.new .Decode).with source

/-- Embeds `ratelimit(retry_after)` from `error.rs` (seconds). -/
def ratelimit (retry_after : Nat) : Error :=
  Error.new (.RateLimit retry_after)

/-- Embeds `error_for_status(status, error)` from `error.rs`.  Status codes are their
numeric values: 422 = UNPROCESSABLE_ENTITY, 401 = UNAUTHORIZED,
403 = FORBIDDEN. -/
def error_for_status (status : Nat) (error : ModioError) : Error :=
  if status = 422 then
    (Error.new (.Validation error.message error.errors)).with_error_ref
      error.error_ref
  else if status = 401 then
    unauthorized error.error_ref
  else if status = 403 ∧ error.error_ref = 11051 then
    terms_required
  else
    ((Error.new (.Status status)).with_error_ref error.error_ref).with
      (.envelope error)

/-- Embeds `Error::is_auth` from `error.rs`. -/
def Error.is_auth (e : Error) : Bool :=
  match e.kind with
  | .Auth .Unauthorized => true
  | .Auth .TokenRequired => true
  | _ => false

/-- Embeds `Error::is_ratelimited` from `error.rs`. -/
def Error.is_ratelimited (e : Error) : Bool :=
  match e.kind with
  | .RateLimit _ => true
  | _ => false

/-- Embeds `Error::is_decode` from `error.rs`. -/
def Error.is_decode (e : Error) : Bool :=
  match e.kind with
  | .Decode => true
  | _ => false

/-! ## Request dispatcher (`src/lib.rs`, `Modio::request`)

A response is modelled by its HTTP status, the two independently parsed
rate-limit headers (`x-ratelimit-remaining` and `x-ratelimit-retryafter`,
each `none` when absent or unparseable, mirroring the
`.and_then(to_str).and_then(parse)` chains), and the outcome of the two
serde parses the dispatcher can attempt on the body: as the expected output
type `Out` and as a `ModioErrorResponse` (whose `error` field is
`ModioError`).  A parse outcome of `none` means serde failed on those
bytes; the bytes themselves are opaque to the dispatcher. -/

structure Response (Out : Type) where
  status : Nat
  remaining : Option Nat
  retry_after : Option Nat
  bodyAsOut : Option Out
  bodyAsEnvelope : Option ModioError

/-- Embeds `StatusCode::is_success()`: 2xx. -/
def is_success (status : Nat) : Bool :=
  200 ≤ status && status < 300

/-- The response-classification tail of `Modio::request` (`lib.rs`):
on 2xx deserialize the body as `Out` (failure is a decode error);
otherwise, if `remaining == 0` and the retry-after header is present,
a rate-limit error with the header value converted from minutes to
seconds; otherwise parse the body as an error envelope (failure
short-circuits with a decode error via `?`) and classify by status with
`error_for_status` from `error.rs`. -/
def classify {Out : Type} (r : Response Out) : Except Error Out :=
  if is_success r.status then
    match r.bodyAsOut with
    | some out => .ok out
    | none => .error (decode .other)
  else
    match r.remaining, r.retry_after with
    | some remaining, some reset =>
      if remaining = 0 then
        .error (ratelimit (reset * 60))
      else
        match r.bodyAsEnvelope with
        | some mer => .error (error_for_status r.status mer)
        | none => .error (decode .other)
    | _, _ =>
      match r.bodyAsEnvelope with
      | some mer => .error (error_for_status r.status mer)
      | none => .error (decode .other)

/-- Embeds `Modio::delete` (`lib.rs`): run the request and turn a decode
(serde/json) error into success, leaving every other outcome unchanged. -/
def delete (r : Response Unit) : Except Error Unit :=
  match classify r with
  | .ok _ => .ok ()
  | .error err => if err.is_decode then .ok () else .error err

/-! ## Credentials and URL building (`src/lib.rs`, `Modio::request`)

A URL is modelled by its non-query part (scheme, host and path, kept as an
opaque string) and its ordered list of query pairs; this is the part of
`url::Url` the dispatcher manipulates. -/

structure UrlM where
  base : String
  query : List (String × String)
  deriving Repr, DecidableEq

/-- Embeds `crate::auth::Credentials`: API key or OAuth2 token. -/
inductive Credentials where
  | ApiKey (key : String)
  | Token (token : String)
  deriving Repr, DecidableEq

/-- URL preparation in `Modio::request`: with API-key credentials
`url.query_pairs_mut().append_pair("api_key", api_key)` appends the pair at
the end of the query of every outgoing URL; with token credentials the URL
is used as parsed. -/
def dispatch_url (credentials : Credentials) (url : UrlM) : UrlM :=
  match credentials with
  | .ApiKey api_key => { url with query := url.query ++ [("api_key", api_key)] }
  | _ => url

/-- Header preparation in `Modio::request`: the user-agent header is always
set, and with token credentials an `Authorization: Bearer` header is added. -/
def dispatch_headers (credentials : Credentials) (agent : String) :
    List (String × String) :=
  [("User-Agent", agent)] ++
    match credentials with
    | .Token token => [("Authorization", "Bearer " ++ token)]
    | _ => []

/-- Header preparation in `Modio::request_file`: only the user-agent header
is set; the credentials are never read, so no `api_key` parameter and no
`Authorization` header is attached to download requests. -/
def file_request_headers (agent : String) : List (String × String) :=
  [("User-Agent", agent)]

/-! ## Download streaming (`src/lib.rs`, `Modio::request_file`)

Download URLs are opaque strings (`request_file` receives `&str`, parses it
and recurses on the raw `Location` string).  A download response carries a
status, the optional `Location` header and the body as the list of chunks
(each a list of bytes) delivered by `into_body()`.  The remote side is a
function from URL to response; the recursion of `request_file` is driven by
explicit fuel since the source imposes no redirect-hop limit. -/

structure FileResponse where
  status : Nat
  location : Option String
  body : List (List Nat)
  deriving Repr, DecidableEq

/-- Bytes contributed by one response body: the fold in `request_file`
starts from `(0, out)` and adds `io::copy`'s count (the chunk length) for
every chunk. -/
def bodyBytes (r : FileResponse) : Nat :=
  (r.body.map List.length).sum

/-- The redirect test of `request_file`:
`MOVED_PERMANENTLY (301) || TEMPORARY_REDIRECT (307) || FOUND (302)`. -/
def is_redirect (status : Nat) : Bool :=
  status = 301 || status = 307 || status = 302

/-- Embeds `Modio::request_file` (`lib.rs`): issue a GET against `url`; if the
status is 301/307/302 and a `Location` header is present, recurse on the
location string verbatim with the same sink; otherwise fold the body chunks
into the sink, accumulating the byte count from 0.  The result pairs the
list of URLs actually requested (first component) with `some (total, sink)`
on completion, `none` when the fuel runs out before a terminal response. -/
def request_file (server : String → FileResponse) :
    Nat → String → List Nat → List String × Option (Nat × List Nat)
  | 0, _, _ => ([], none)
  | fuel + 1, url, out =>
    let r := server url
    if is_redirect r.status then
      match r.location with
      | some location =>
        let rec1 := request_file server fuel location out
        (url :: rec1.1, rec1.2)
      | none => ([url], some (bodyBytes r, out ++ r.body.flatten))
    else
      ([url], some (bodyBytes r, out ++ r.body.flatten))

/-! ## Download resolution (`src/lib.rs`, `Modio::download`, Version action)

`ModFile` models `crate::files::File` with the fields the download path
reads: the version string, the date-added timestamp and the download
binary URL. -/

structure ModFile where
  id : Nat
  version : String
  date_added : Nat
  binary_url : String
  deriving Repr, DecidableEq

/-- Embeds `crate::download::ResolvePolicy`. -/
inductive ResolvePolicy where
  | Latest
  | Fail
  deriving Repr, DecidableEq

/-- Modelled from the spec: the download error variants of §7
(`DownloadError` lives in `download.rs`, which is not part of this
snapshot; `lib.rs` raises them through `error::download_version_not_found`
and `error::download_multiple_files`). -/
inductive DownloadError where
  | VersionNotFound (game_id mod_id : Nat) (version : String)
  | MultipleFilesFound (game_id mod_id : Nat) (version : String)
  deriving Repr, DecidableEq

/-- Descending date-added order used by the Version listing:
`sort_by(DATE_ADDED, Order::Desc)`. -/
def dateDesc (a b : ModFile) : Prop :=
  b.date_added ≤ a.date_added

instance : DecidableRel dateDesc := fun a b =>
  inferInstanceAs (Decidable (b.date_added ≤ a.date_added))

instance : IsTotal ModFile dateDesc :=
  ⟨fun a b => Nat.le_total b.date_added a.date_added⟩

instance : IsTrans ModFile dateDesc :=
  ⟨fun _ _ _ h h2 => Nat.le_trans h2 h⟩

/-- Modelled from the spec: the server-side effect of the listing options
built by `DownloadAction::Version` — `version(Equals, v)`,
`sort_by(DATE_ADDED, Desc)`, `limit(2)` — on the server's file set:
filter by exact version equality, sort by date-added descending, cap at 2
results (the `FileListOptions` builder of `files.rs` and the remote
listing endpoint are not part of this snapshot). -/
def versionQuery (files : List ModFile) (version : String) : List ModFile :=
  ((files.filter fun f => f.version = version).insertionSort dateDesc).take 2

/-- The `(list.count, policy)` match inside `Modio::download` for
`DownloadAction::Version` (`lib.rs`), with the returned listing's
`count` equal to the number of returned files: 0 files is a
"version not found" error, 1 file resolves to that file, 2 files resolve
to the first (most recent) under `Latest` and to a "multiple files found"
error under `Fail`.  The resolved file is the one whose
`download.binary_url` is then streamed via `request_file`. -/
def resolve_version (list : List ModFile) (game_id mod_id : Nat)
    (version : String) (policy : ResolvePolicy) : Except DownloadError ModFile :=
  match list, policy with
  | [], _ => .error (.VersionNotFound game_id mod_id version)
  | file :: [], _ => .ok file
  | file :: _ :: _, .Latest => .ok file
  | _ :: _ :: _, .Fail => .error (.MultipleFilesFound game_id mod_id version)

/-- The whole Version download action: issue the capped, sorted,
filtered listing and resolve it under the policy. -/
def download_version (files : List ModFile) (game_id mod_id : Nat)
    (version : String) (policy : ResolvePolicy) : Except DownloadError ModFile :=
  resolve_version (versionQuery files version) game_id mod_id version policy

/-! ## Pagination stream (`src/lib.rs`, `Modio::stream`)

`Page` is `ModioListResponse`: the listing envelope with `data`, `offset`,
`limit` and `total` (u32 values modelled as `Nat`; `total` is a u32, so a
page from the wire satisfies `total < 2^32`). -/

structure Page (D : Type) where
  data : List D
  offset : Nat
  limit : Nat
  total : Nat

/-- Wrapping u32 decrement: `state.count -= 1` in the yield branch of
`Modio::stream` is a u32 subtraction, which wraps around at 0. -/
def dec32 (n : Nat) : Nat :=
  (n + (2 ^ 32 - 1)) % 2 ^ 32

/-- The `State` struct of `Modio::stream`.  The `items` buffer is the
Rust `Vec` read back to front (the code keeps the buffer reversed so that
`Vec::pop` removes the next item from the end): this list therefore holds
the not-yet-yielded items in original server order, its head being the
element `Vec::pop` returns. -/
structure StreamState (D : Type) where
  uri : UrlM
  items : List D
  offset : Nat
  limit : Nat
  count : Nat

/-- Lexicographic character-list order, the `Ord`-ordering of `String`
map keys in a `BTreeMap<String, String>`. -/
def charsLt : List Char → List Char → Bool
  | [], [] => false
  | [], _ :: _ => true
  | _ :: _, [] => false
  | a :: as, b :: bs =>
    if a.toNat < b.toNat then true
    else if b.toNat < a.toNat then false
    else charsLt as bs

/-- Lexicographic order on map keys. -/
def keyLt (a b : String) : Bool :=
  charsLt a.data b.data

/-- The URL rebuilding step for a follow-up page fetch in `Modio::stream`:
collect the query pairs into a `BTreeMap` (ordered by key, a later pair
overwriting an earlier one with the same key), insert `_offset` mapped to
the new offset, then clear the URL's query and extend it with the map's
pairs in ascending key order. -/
def insertSorted (k v : String) : List (String × String) → List (String × String)
  | [] => [(k, v)]
  | (k2, v2) :: rest =>
    if keyLt k k2 then (k, v) :: (k2, v2) :: rest
    else if k = k2 then (k, v) :: rest
    else (k2, v2) :: insertSorted k v rest

/-- The `BTreeMap` built from the existing query pairs, as its ascending
key-ordered pair list. -/
def toOrderedMap (q : List (String × String)) : List (String × String) :=
  q.foldl (fun m kv => insertSorted kv.1 kv.2 m) []

/-- Rebuild the stream URL with the follow-up offset (see `insertSorted`). -/
def rebuild (u : UrlM) (newOffset : Nat) : UrlM :=
  { base := u.base,
    query := insertSorted "_offset" (toString newOffset) (toOrderedMap u.query) }

/-- Result of one pull on the unfolded stream. -/
inductive Pull (D : Type) where
  | yield (fetched : Option UrlM) (item : D) (s : StreamState D)
  | done
  | panic

/-- One step of the `stream::unfold` closure in `Modio::stream`.  If the
buffer holds an item, pop it, decrement the remaining count (u32 wrap) and
yield it.  Otherwise, if the remaining count is positive, fetch the rebuilt
URL: the new state takes the fetched URL, the old limit, offset + limit and
count - 1, and the first item of the fetched page is removed and yielded
(`Vec::remove(0)` panics when the fetched page is empty).  Otherwise the
stream is done.  The server is the function giving the page returned for a
requested URL; the dispatcher hands back the requested URL alongside the
page, which becomes the state's `uri`. -/
def pull {D : Type} (server : UrlM → Page D) (s : StreamState D) : Pull D :=
  match s.items with
  | item :: rest =>
    .yield none item { s with items := rest, count := dec32 s.count }
  | [] =>
    if s.count > 0 then
      let url := rebuild s.uri (s.offset + s.limit)
      let page := server url
      match page.data with
      | first :: restItems =>
        .yield (some url) first
          { uri := url, items := restItems, offset := s.offset + s.limit,
            limit := s.limit, count := s.count - 1 }
      | [] => .panic
    else .done

/-- How a run of the stream ends: normal termination, a panic of the
unfold closure, or exhaustion of the modelling fuel. -/
inductive RunEnd where
  | done
  | panicked
  | fuelOut
  deriving Repr, DecidableEq

/-- Drive the unfolded stream to its end, collecting the yielded items and
the follow-up URLs fetched.  The fuel only bounds the modelled number of
pulls; every theorem below supplies enough of it. -/
def run {D : Type} (server : UrlM → Page D) :
    Nat → StreamState D → List D × List UrlM × RunEnd
  | 0, _ => ([], [], .fuelOut)
  | fuel + 1, s =>
    match pull server s with
    | .done => ([], [], .done)
    | .panic => ([], [], .panicked)
    | .yield fetched item s2 =>
      let rest := run server fuel s2
      (item :: rest.1, fetched.toList ++ rest.2.1, rest.2.2)

/-- The initial cursor state built by `Modio::stream` from the first page:
buffer = the page's items (reversed into the `Vec`), offset and limit from
the page, remaining count = the page's `total`. -/
def initState {D : Type} (uri : UrlM) (page : Page D) : StreamState D :=
  { uri := uri, items := page.data, offset := page.offset,
    limit := page.limit, count := page.total }

/-- Embeds `Modio::stream`: fetch the first page at the given URL, initialize the
cursor and drive the unfold.  Returns the yielded items, all requested URLs
(the initial one first) and how the run ended. -/
def streamRun {D : Type} (server : UrlM → Page D) (fuel : Nat) (uri : UrlM) :
    List D × List UrlM × RunEnd :=
  let page := server uri
  let rest := run server fuel (initState uri page)
  (rest.1, uri :: rest.2.1, rest.2.2)

/-- Consistency of the server's follow-up pages along the URL chain the
stream will fetch, starting from a given uri/offset/limit and a remaining
count: every follow-up page (fetched at the rebuilt URL while the count is
positive) is non-empty and no larger than the remaining count, and the
chain continues with the count reduced by the page size.  Nothing is
assumed about the `total`, `offset` or `limit` fields of follow-up pages. -/
inductive Good {D : Type} (server : UrlM → Page D) :
    UrlM → Nat → Nat → Nat → Prop
  | done (uri : UrlM) (offset limit : Nat) : Good server uri offset limit 0
  | step (uri : UrlM) (offset limit count : Nat)
      (hpos : 0 < count)
      (hne : (server (rebuild uri (offset + limit))).data ≠ [])
      (hle : (server (rebuild uri (offset + limit))).data.length ≤ count)
      (hnext : Good server (rebuild uri (offset + limit)) (offset + limit)
        limit (count - (server (rebuild uri (offset + limit))).data.length)) :
      Good server uri offset limit count

/-! ## Concrete instances

Concrete responses, file sets and servers used to evaluate the definitions
above on explicit inputs. -/

/-- A well-formed server error envelope. -/
def env0 : ModioError :=
  { message := "Validation Failed", errors := [("name", "too short")],
    error_ref := 13009 }

/-- A 403 response with exhausted rate limit, a 5-minute retry-after and a
valid error envelope in the body. -/
def c2resp : Response Unit :=
  { status := 403, remaining := some 0, retry_after := some 5,
    bodyAsOut := none, bodyAsEnvelope := some env0 }

/-- A 500 response with no rate-limit headers and a valid envelope. -/
def c3resp : Response Unit :=
  { status := 500, remaining := none, retry_after := none,
    bodyAsOut := none, bodyAsEnvelope := some env0 }

/-- A 401 response whose body parses neither as the expected type nor as an
error envelope. -/
def c4resp : Response Unit :=
  { status := 401, remaining := none, retry_after := none,
    bodyAsOut := none, bodyAsEnvelope := none }

/-- A 401 response with a valid error envelope. -/
def c4resp2 : Response Unit :=
  { status := 401, remaining := none, retry_after := none,
    bodyAsOut := none, bodyAsEnvelope := some env0 }

/-- A success DELETE response whose (empty) body fails to decode as the
expected JSON type. -/
def c6respOk : Response Unit :=
  { status := 204, remaining := none, retry_after := none,
    bodyAsOut := none, bodyAsEnvelope := none }

/-- A 422 DELETE response with a valid error envelope. -/
def c6respErr : Response Unit :=
  { status := 422, remaining := none, retry_after := none,
    bodyAsOut := none, bodyAsEnvelope := some env0 }

/-- Two files sharing version "1.0" (dates 100 and 200) and one other
version. -/
def fileA : ModFile :=
  { id := 1, version := "1.0", date_added := 100,
    binary_url := "https://cdn.test/a.zip" }

def fileB : ModFile :=
  { id := 2, version := "1.0", date_added := 200,
    binary_url := "https://cdn.test/b.zip" }

def fileC : ModFile :=
  { id := 3, version := "2.0", date_added := 300,
    binary_url := "https://cdn.test/c.zip" }

def c5files : List ModFile := [fileA, fileB, fileC]

/-- A download server: the API URL answers 302 pointing at the CDN URL,
the CDN URL answers 200 with three body chunks, and a third URL answers a
terminal 500 with a body. -/
def dlserver : String → FileResponse := fun u =>
  if u = "https://api.test/one" then
    { status := 302, location := some "https://cdn.test/two?signed=1",
      body := [[9]] }
  else if u = "https://api.test/err" then
    { status := 500, location := none, body := [[1], [2, 3]] }
  else
    { status := 200, location := none, body := [[1, 2], [3]] }

/-- Initial URL of a small pagination scenario. -/
def c1uri : UrlM :=
  { base := "https://api.test/v1/games", query := [("_offset", "0")] }

/-- The follow-up URL the stream rebuilds from `c1uri` at offset 0 + 2. -/
def c1u1 : UrlM := rebuild c1uri (0 + 2)

/-- A paginated server: first page `[10, 20]` with total 3, follow-up page
`[30]` whose own total/offset/limit fields are junk (they are ignored). -/
def c1server : UrlM → Page Nat := fun q =>
  if q = c1u1 then { data := [30], offset := 99, limit := 77, total := 500 }
  else { data := [10, 20], offset := 0, limit := 2, total := 3 }

/-- Initial URL of the 250-item pagination scenario. -/
def c8uri : UrlM :=
  { base := "https://api.test/v1/games/1/mods",
    query := [("_limit", "100"), ("_offset", "0")] }

/-- Follow-up URLs rebuilt at offsets 0 + 100 and 100 + 100. -/
def c8u1 : UrlM := rebuild c8uri (0 + 100)

def c8u2 : UrlM := rebuild c8u1 (100 + 100)

/-- A paginated server with 250 items served 100/100/50; the second page
reports a junk total of 999 and the third a total of 0. -/
def c8server : UrlM → Page Nat := fun q =>
  if q = c8u1 then
    { data := List.range' 100 100, offset := 100, limit := 100, total := 999 }
  else if q = c8u2 then
    { data := List.range' 200 50, offset := 200, limit := 100, total := 0 }
  else
    { data := List.range' 0 100, offset := 0, limit := 100, total := 250 }

/-! ## Theorems -/

/-- Helper: a non-2xx response that does not meet the rate-limit condition
and whose body parses as an error envelope is classified by
`error_for_status`. -/
theorem classify_envelope {Out : Type} (r : Response Out) (mer : ModioError)
    (hs : is_success r.status = false)
    (hnr : ¬(r.remaining = some 0 ∧ r.retry_after.isSome = true))
    (hb : r.bodyAsEnvelope = some mer) :
    classify r = .error (error_for_status r.status mer) := by
  rcases hrem : r.remaining with _ | a <;>
    rcases hret : r.retry_after with _ | b <;>
      simp only [classify, hs, hb, hrem, hret, Bool.false_eq_true, if_false]
  have ha : ¬a = 0 := by
    rintro rfl
    exact hnr ⟨hrem, by rw [hret]; rfl⟩
  simp [ha]

/-- C2: for every non-2xx response whose remaining-request-count header
parses to 0 and whose retry-after-minutes header is present, the dispatcher
classifies the outcome as a rate-limit error whose retry-after duration is
the header value in minutes times 60 seconds, regardless of the response
body; this takes precedence over body-based classification. -/
theorem rate_limit_precedence {Out : Type} (r : Response Out) (minutes : Nat)
    (hs : is_success r.status = false)
    (hrem : r.remaining = some 0)
    (hretry : r.retry_after = some minutes) :
    classify r = .error (ratelimit (minutes * 60)) := by
  simp [classify, hs, hrem, hretry]

/-- C2 witness: a 403 response with remaining = 0 and a 5-minute
retry-after classifies as a 300-second rate-limit error although its body
holds a valid error envelope. -/
theorem rate_limit_precedence_witness :
    classify c2resp = .error (ratelimit 300) :=
  rate_limit_precedence c2resp 5 rfl rfl rfl

/-- C3: every non-2xx response that is not rate-limited and whose body
parses as an error envelope is classified by status through
`error_for_status`: 422 yields a validation error carrying the message,
field errors and error_ref; 401 yields an unauthorized auth error with
error_ref attached; 403 with error_ref 11051 yields a
terms-acceptance-required auth error; every other non-2xx status yields a
generic status error carrying the status code, the error_ref and the
envelope as the wrapped cause. -/
theorem status_classification {Out : Type} (r : Response Out)
    (mer : ModioError)
    (hs : is_success r.status = false)
    (hnr : ¬(r.remaining = some 0 ∧ r.retry_after.isSome = true))
    (hb : r.bodyAsEnvelope = some mer) :
    classify r = .error (error_for_status r.status mer) ∧
    (r.status = 422 → classify r = .error
      { kind := .Validation mer.message mer.errors,
        error_ref := some mer.error_ref, source := none }) ∧
    (r.status = 401 → classify r = .error
      { kind := .Auth .Unauthorized, error_ref := some mer.error_ref,
        source := some (.auth .Unauthorized) }) ∧
    (r.status = 403 → mer.error_ref = 11051 → classify r = .error
      { kind := .Auth .TermsAcceptanceRequired, error_ref := none,
        source := some (.auth .TermsAcceptanceRequired) }) ∧
    (r.status ≠ 422 → r.status ≠ 401 →
      ¬(r.status = 403 ∧ mer.error_ref = 11051) → classify r = .error
      { kind := .Status r.status, error_ref := some mer.error_ref,
        source := some (.envelope mer) }) := by
  have hcl := classify_envelope r mer hs hnr hb
  refine ⟨hcl, ?_, ?_, ?_, ?_⟩
  · intro h422
    rw [hcl, h422]
    simp [error_for_status, Error.new, Error.with_error_ref]
  · intro h401
    rw [hcl, h401]
    simp [error_for_status, unauthorized, Error.new, Error.with_error_ref,
      Error.with]
  · intro h403 href
    rw [hcl, h403]
    simp [error_for_status, href, terms_required, Error.new, Error.with]
  · intro h422 h401 h403
    rw [hcl]
    rw [error_for_status, if_neg h422, if_neg h401, if_neg h403]
    simp [Error.new, Error.with_error_ref, Error.with]

/-- C3 witness: a 500 response with a valid envelope classifies as a
generic status error carrying status 500, the envelope's error_ref and the
envelope as wrapped cause. -/
theorem status_classification_witness :
    classify c3resp = .error
      { kind := .Status 500, error_ref := some 13009,
        source := some (.envelope env0) } :=
  (status_classification c3resp env0 rfl (by decide) rfl).2.2.2.2
    (by decide) (by decide) (by decide)

/-- C4 counterexample: a 401 response whose body does not parse as a valid
error envelope is classified as a decode error, which is not an auth
error, so a 401 does not classify as Unauthorized regardless of body
content. -/
theorem unauthorized_regardless_of_body_counterexample :
    c4resp.status = 401 ∧
    classify c4resp = .error (decode .other) ∧
    (decode ErrSource.other).is_auth = false :=
  ⟨rfl, rfl, rfl⟩

/-- C4 (amended): every response with status 401 that is not rate-limited
and whose body parses as an error envelope classifies as an Unauthorized
auth error (error_ref attached), regardless of the envelope's contents; a
401 whose body fails to parse as an envelope yields a decode error
instead. -/
theorem unauthorized_classification {Out : Type} (r : Response Out)
    (h401 : r.status = 401)
    (hnr : ¬(r.remaining = some 0 ∧ r.retry_after.isSome = true)) :
    (∀ mer : ModioError, r.bodyAsEnvelope = some mer →
      classify r = .error (unauthorized mer.error_ref)) ∧
    (r.bodyAsEnvelope = none → classify r = .error (decode .other)) := by
  have hs : is_success r.status = false := by rw [h401]; rfl
  constructor
  · intro mer hb
    have hcl := classify_envelope r mer hs hnr hb
    rw [hcl, h401]
    rw [error_for_status, if_neg (by decide), if_pos rfl]
  · intro hb
    rcases hrem : r.remaining with _ | a <;>
      rcases hret : r.retry_after with _ | b <;>
        simp only [classify, hs, hb, hrem, hret, Bool.false_eq_true, if_false]
    have ha : ¬a = 0 := by
      rintro rfl
      exact hnr ⟨hrem, by rw [hret]; rfl⟩
    simp [ha]

/-- C4 (amended) witness: a 401 response with a valid envelope of
error_ref 13009 classifies as Unauthorized with that error_ref. -/
theorem unauthorized_classification_witness :
    classify c4resp2 = .error (unauthorized 13009) :=
  (unauthorized_classification c4resp2 rfl (by decide)).1 env0 rfl

/-- C6: a DELETE response whose body fails to decode as the expected JSON
type surfaces a decode error from the dispatcher, which `delete` alone
turns into success; a DELETE response carrying a successfully-decoded 422
error envelope still classifies as a validation error and is not
swallowed. -/
theorem delete_decode_policy (r r2 : Response Unit) (mer : ModioError)
    (hok : is_success r.status = true)
    (hbody : r.bodyAsOut = none)
    (h422 : r2.status = 422)
    (hnr : ¬(r2.remaining = some 0 ∧ r2.retry_after.isSome = true))
    (hb : r2.bodyAsEnvelope = some mer) :
    classify r = .error (decode .other) ∧
    delete r = .ok () ∧
    delete r2 = .error
      { kind := .Validation mer.message mer.errors,
        error_ref := some mer.error_ref, source := none } := by
  have hcl : classify r = .error (decode .other) := by
    simp [classify, hok, hbody]
  have hs2 : is_success r2.status = false := by rw [h422]; rfl
  have hcl2 := classify_envelope r2 mer hs2 hnr hb
  refine ⟨hcl, ?_, ?_⟩
  · rw [delete, hcl]
    rfl
  · rw [delete, hcl2, h422]
    rw [error_for_status, if_pos rfl]
    rfl

/-- C6 witness: a 204 DELETE response with an undecodable body completes
as success, while a 422 DELETE response with a valid envelope keeps its
validation error. -/
theorem delete_decode_policy_witness :
    delete c6respOk = .ok () ∧
    delete c6respErr = .error
      { kind := .Validation "Validation Failed" [("name", "too short")],
        error_ref := some 13009, source := none } := by
  have h := delete_decode_policy c6respOk c6respErr env0 rfl rfl rfl
    (by decide) rfl
  exact ⟨h.2.1, h.2.2⟩

/-- C5: the Version download action lists files filtered by exact version
equality, sorted by date-added descending and capped to 2 results, and
resolves to exactly five outcomes: no match is a "version not found"
error; one match streams that file; two or more matches stream the most
recently added file under Latest and are a "multiple files found" error
under Fail. -/
theorem version_resolution (files : List ModFile) (game_id mod_id : Nat)
    (version : String) (policy : ResolvePolicy) :
    ((files.filter fun f => f.version = version) = [] →
      download_version files game_id mod_id version policy =
        .error (.VersionNotFound game_id mod_id version)) ∧
    (∀ f, (files.filter fun f => f.version = version) = [f] →
      download_version files game_id mod_id version policy = .ok f) ∧
    (2 ≤ (files.filter fun f => f.version = version).length →
      (policy = .Latest →
        ∃ f, download_version files game_id mod_id version policy = .ok f ∧
          f ∈ files.filter (fun f => f.version = version) ∧
          ∀ g ∈ files.filter (fun f => f.version = version),
            g.date_added ≤ f.date_added) ∧
      (policy = .Fail →
        download_version files game_id mod_id version policy =
          .error (.MultipleFilesFound game_id mod_id version))) ∧
    (versionQuery files version).length =
      min 2 (files.filter fun f => f.version = version).length ∧
    (∀ f ∈ versionQuery files version, f.version = version ∧ f ∈ files) ∧
    List.Pairwise dateDesc (versionQuery files version) := by
  have hperm :=
    List.perm_insertionSort dateDesc (files.filter fun f => f.version = version)
  have hsort :=
    List.sorted_insertionSort dateDesc (files.filter fun f => f.version = version)
  refine ⟨?_, ?_, ?_, ?_, ?_, ?_⟩
  · intro hnil
    rw [download_version, versionQuery, hnil]
    rfl
  · intro f hone
    rw [download_version, versionQuery, hone]
    rfl
  · intro hlen
    have hslen : 2 ≤ ((files.filter fun f => f.version = version).insertionSort
        dateDesc).length := by
      rw [hperm.length_eq]
      exact hlen
    obtain ⟨a, b, t, hs⟩ : ∃ a b t,
        (files.filter fun f => f.version = version).insertionSort dateDesc =
          a :: b :: t := by
      rcases hcase : (files.filter fun f => f.version = version).insertionSort
          dateDesc with _ | ⟨a, _ | ⟨b, t⟩⟩
      · rw [hcase] at hslen
        exact absurd hslen (by simp)
      · rw [hcase] at hslen
        exact absurd hslen (by simp)
      · exact ⟨a, b, t, hcase⟩
    constructor
    · rintro rfl
      refine ⟨a, ?_, ?_, ?_⟩
      · rw [download_version, versionQuery, hs]
        rfl
      · have ha : a ∈ (files.filter fun f => f.version = version).insertionSort
            dateDesc := by
          rw [hs]
          exact List.mem_cons_self a _
        exact hperm.subset ha
      · intro g hg
        have hg2 : g ∈ a :: b :: t := by
          rw [← hs]
          exact hperm.symm.subset hg
        rcases List.mem_cons.mp hg2 with hga | hgtail
        · rw [hga]
        · have := List.rel_of_sorted_cons (hs ▸ hsort) g hgtail
          exact this
    · rintro rfl
      rw [download_version, versionQuery, hs]
      rfl
  · rw [versionQuery, List.length_take, hperm.length_eq]
  · intro f hf
    have hf2 : f ∈ (files.filter fun f => f.version = version).insertionSort
        dateDesc :=
      (List.take_sublist 2 _).subset hf
    have hf3 := hperm.subset hf2
    have := List.mem_filter.mp hf3
    exact ⟨of_decide_eq_true this.2, this.1⟩
  · exact List.Pairwise.sublist (List.take_sublist 2 _) hsort

/-- C5 witness: over two files of version "1.0" (dates 100 and 200) and
one of version "2.0", an unmatched version fails with "version not found",
a uniquely matched version resolves to its file, and an ambiguous version
under Fail fails with "multiple files found". -/
theorem version_resolution_witness :
    download_version c5files 5 19 "3.0" .Latest =
      .error (.VersionNotFound 5 19 "3.0") ∧
    download_version c5files 5 19 "2.0" .Latest = .ok fileC ∧
    download_version c5files 5 19 "1.0" .Fail =
      .error (.MultipleFilesFound 5 19 "1.0") :=
  ⟨(version_resolution c5files 5 19 "3.0" .Latest).1 (by decide),
   (version_resolution c5files 5 19 "2.0" .Latest).2.1 fileC (by decide),
   ((version_resolution c5files 5 19 "1.0" .Fail).2.2.1 (by decide)).2 rfl⟩

/-- Helper: one redirect step of `request_file` prepends the current URL
to the trace of the recursive call on the location. -/
theorem request_file_redirect_step (server : String → FileResponse)
    (fuel : Nat) (u loc : String) (out : List Nat)
    (hred : is_redirect (server u).status = true)
    (hloc : (server u).location = some loc) :
    request_file server (fuel + 1) u out =
      (u :: (request_file server fuel loc out).1,
        (request_file server fuel loc out).2) := by
  simp [request_file, hred, hloc]

/-- Helper: a download with at least one unit of fuel always requests its
argument URL first. -/
theorem request_file_trace_cons (server : String → FileResponse)
    (fuel : Nat) (u : String) (out : List Nat) :
    ∃ t, (request_file server (fuel + 1) u out).1 = u :: t := by
  cases h : is_redirect (server u).status with
  | false => exact ⟨[], by simp [request_file, h]⟩
  | true =>
    cases hl : (server u).location with
    | none => exact ⟨[], by simp [request_file, h, hl]⟩
    | some l =>
      exact ⟨(request_file server fuel l out).1,
        by simp [request_file, h, hl]⟩

/-- C7: with API-key credentials the dispatcher appends `api_key` as a
query parameter at the end of every outgoing URL (any base, any existing
query) and sets no Authorization header; download streaming GETs carry
only the user-agent header, and a download redirect target is requested
verbatim as the next URL — the parameter is never re-appended there. -/
theorem api_key_injection (key agent : String) (url : UrlM)
    (server : String → FileResponse) (u loc : String)
    (out : List Nat) (fuel : Nat)
    (hred : is_redirect (server u).status = true)
    (hloc : (server u).location = some loc) :
    dispatch_url (.ApiKey key) url =
      { base := url.base, query := url.query ++ [("api_key", key)] } ∧
    dispatch_headers (.ApiKey key) agent = [("User-Agent", agent)] ∧
    file_request_headers agent = [("User-Agent", agent)] ∧
    (request_file server (fuel + 2) u out).1.take 2 = [u, loc] := by
  refine ⟨rfl, rfl, rfl, ?_⟩
  obtain ⟨t, ht⟩ := request_file_trace_cons server fuel loc out
  rw [request_file_redirect_step server (fuel + 1) u loc out hred hloc]
  simp [ht]

/-- C7 witness: with key "k" the dispatcher URL gains `api_key=k` after
the existing pairs, and the download redirect chain requests exactly the
Location value as its second URL. -/
theorem api_key_injection_witness :
    dispatch_url (.ApiKey "k")
        { base := "https://api.test/v1/games", query := [("_offset", "0")] } =
      { base := "https://api.test/v1/games",
        query := [("_offset", "0"), ("api_key", "k")] } ∧
    dispatch_headers (.ApiKey "k") "agent/1.0" = [("User-Agent", "agent/1.0")] ∧
    file_request_headers "agent/1.0" = [("User-Agent", "agent/1.0")] ∧
    (request_file dlserver 2 "https://api.test/one" []).1.take 2 =
      ["https://api.test/one", "https://cdn.test/two?signed=1"] :=
  api_key_injection "k" "agent/1.0"
    { base := "https://api.test/v1/games", query := [("_offset", "0")] }
    dlserver "https://api.test/one" "https://cdn.test/two?signed=1" [] 0
    rfl rfl

/-- C9: a download GET answered by 301/302/307 with a Location header
re-issues the streaming GET against the new URL; on terminal success the
body is copied incrementally into the sink, the reported total is the sum
of bytes written across the legs (the redirect leg writes none), and the
sink is handed back together with that total. -/
theorem download_redirect (server : String → FileResponse)
    (u1 u2 : String) (out : List Nat) (fuel : Nat)
    (hred : is_redirect (server u1).status = true)
    (hloc : (server u1).location = some u2)
    (hterm : is_redirect (server u2).status = false) :
    request_file server (fuel + 2) u1 out =
      ([u1, u2],
        some (bodyBytes (server u2), out ++ (server u2).body.flatten)) := by
  simp [request_file, hred, hloc, hterm]

/-- C9 witness: a 302 from the API URL leads to a second GET on the CDN
URL; the returned total 3 is the byte count of the terminal body and the
sink `[7]` comes back extended by those bytes. -/
theorem download_redirect_witness :
    request_file dlserver 2 "https://api.test/one" [7] =
      (["https://api.test/one", "https://cdn.test/two?signed=1"],
        some (3, [7, 1, 2, 3])) :=
  download_redirect dlserver "https://api.test/one"
    "https://cdn.test/two?signed=1" [7] 0 rfl rfl rfl

/-- C10: every terminal download response — any status other than
301/302/307, including 4xx and 5xx — has its body copied into the sink,
and the download returns success with the byte count; the terminal status
never produces a status, auth or rate-limit error. -/
theorem download_ignores_terminal_status (server : String → FileResponse)
    (u : String) (out : List Nat) (fuel : Nat)
    (h : is_redirect (server u).status = false) :
    request_file server (fuel + 1) u out =
      ([u], some (bodyBytes (server u), out ++ (server u).body.flatten)) := by
  simp [request_file, h]

/-- C10 witness: a terminal 500 response still streams its 3-byte body
into the sink and completes successfully. -/
theorem download_ignores_terminal_status_witness :
    request_file dlserver 1 "https://api.test/err" [] =
      (["https://api.test/err"], some (3, [1, 2, 3])) :=
  download_ignores_terminal_status dlserver "https://api.test/err" [] 0 rfl

/-- Helper: the wrapping u32 decrement agrees with the exact decrement on
positive values in u32 range. -/
theorem dec32_of_pos (n : Nat) (h1 : 0 < n) (h2 : n ≤ 2 ^ 32) :
    dec32 n = n - 1 := by
  rw [dec32]
  have he : n + (2 ^ 32 - 1) = (n - 1) + 2 ^ 32 := by omega
  rw [he, Nat.add_mod_right]
  exact Nat.mod_eq_of_lt (by omega)

/-- Helper: from any cursor state whose buffer is not larger than its
remaining count and whose follow-up pages are consistent (`Good`), the
stream yields exactly `count` items and terminates normally, given fuel
for `count` yields plus the final termination check. -/
theorem run_spec {D : Type} (server : UrlM → Page D) :
    ∀ fuel (s : StreamState D),
      s.items.length ≤ s.count → s.count ≤ 2 ^ 32 →
      s.count + 1 ≤ fuel →
      Good server s.uri s.offset s.limit (s.count - s.items.length) →
      (run server fuel s).1.length = s.count ∧
      (run server fuel s).2.2 = .done := by
  intro fuel
  induction fuel with
  | zero =>
    intro s h1 h2 h3 hg
    omega
  | succ fuel ih =>
    rintro ⟨uri, items, offset, limit, count⟩ h1 h2 h3 hg
    simp only at h1 h2 h3 hg
    cases items with
    | cons item rest =>
      have hc : 0 < count := by
        simp only [List.length_cons] at h1
        omega
      have hdec : dec32 count = count - 1 := dec32_of_pos count hc h2
      have hg2 : Good server uri offset limit (count - 1 - rest.length) := by
        have he : count - 1 - rest.length = count - (item :: rest).length := by
          simp only [List.length_cons]
          omega
        rw [he]
        exact hg
      obtain ⟨ihlen, ihend⟩ :=
        ih ⟨uri, rest, offset, limit, count - 1⟩
          (by show rest.length ≤ count - 1
              simp only [List.length_cons] at h1
              omega)
          (by show count - 1 ≤ 2 ^ 32; omega)
          (by show count - 1 + 1 ≤ fuel; omega) hg2
      rw [run]
      simp only [pull, hdec]
      constructor
      · simp only [List.length_cons, ihlen]
        omega
      · exact ihend
    | nil =>
      simp only [List.length_nil, Nat.sub_zero] at hg
      cases Nat.eq_zero_or_pos count with
      | inl h0 =>
        subst h0
        rw [run]
        simp [pull]
      | inr hpos =>
        cases hg with
        | done => omega
        | step _ _ _ _ hpos2 hne hle hnext =>
          rcases hdata : (server (rebuild uri (offset + limit))).data with
            _ | ⟨first, restItems⟩
          · exact absurd hdata hne
          · rw [hdata] at hle hnext
            simp only [List.length_cons] at hle
            obtain ⟨ihlen, ihend⟩ :=
              ih ⟨rebuild uri (offset + limit), restItems, offset + limit,
                  limit, count - 1⟩
                (by show restItems.length ≤ count - 1; omega)
                (by show count - 1 ≤ 2 ^ 32; omega)
                (by show count - 1 + 1 ≤ fuel; omega)
                (by
                  show Good server (rebuild uri (offset + limit))
                    (offset + limit) limit (count - 1 - restItems.length)
                  have he : count - 1 - restItems.length =
                      count - (restItems.length + 1) := by omega
                  rw [he]
                  exact hnext)
            rw [run]
            simp only [pull, hpos, if_pos, hdata]
            constructor
            · simp only [List.length_cons, ihlen]
              omega
            · exact ihend

/-- Helper: the stream reads follow-up pages only through their `data`
field, so two servers whose pages carry the same items drive identical
runs from any state. -/
theorem run_agree {D : Type} (server server2 : UrlM → Page D)
    (hdata : ∀ q, (server2 q).data = (server q).data) :
    ∀ fuel (s : StreamState D), run server2 fuel s = run server fuel s := by
  intro fuel
  induction fuel with
  | zero => intro s; rfl
  | succ fuel ih =>
    intro s
    have hpull : pull server2 s = pull server s := by
      obtain ⟨uri, items, offset, limit, count⟩ := s
      cases items with
      | cons item rest => rfl
      | nil =>
        simp only [pull]
        by_cases hc : count > 0
        · simp only [hc, if_pos]
          rw [hdata (rebuild uri (offset + limit))]
        · simp [hc]
    rw [run, run, hpull]
    cases pull server s with
    | done => rfl
    | panic => rfl
    | yield fetched item s2 => simp [ih s2]

/-- C1: over any consistent sequence of server pages, the pagination
stream yields exactly as many items as the `total` field of the first
page response and terminates normally; a first page with total = 0 yields
the empty sequence with no second fetch; and the run is unchanged under
any alteration of the follow-up pages that keeps their items, so the
`total` fields of later pages are ignored and termination is driven
solely by the remaining-count counter. -/
theorem stream_total_invariant {D : Type} (server : UrlM → Page D)
    (uri : UrlM) (fuel : Nat)
    (h1 : (server uri).data.length ≤ (server uri).total)
    (h2 : (server uri).total ≤ 2 ^ 32)
    (h3 : (server uri).total + 1 ≤ fuel)
    (hg : Good server uri (server uri).offset (server uri).limit
      ((server uri).total - (server uri).data.length)) :
    ((streamRun server fuel uri).1.length = (server uri).total ∧
      (streamRun server fuel uri).2.2 = .done) ∧
    ((server uri).total = 0 → (streamRun server fuel uri).2.1 = [uri]) ∧
    (∀ server2 : UrlM → Page D, server2 uri = server uri →
      (∀ q, (server2 q).data = (server q).data) →
      streamRun server2 fuel uri = streamRun server fuel uri) := by
  have hrs := run_spec server fuel (initState uri (server uri)) h1 h2 h3 hg
  refine ⟨⟨hrs.1, hrs.2⟩, ?_, ?_⟩
  · intro htot
    have hdat : (server uri).data = [] := by
      rw [htot] at h1
      exact List.eq_nil_of_length_eq_zero (Nat.le_zero.mp h1)
    rcases fuel with _ | fuel
    · omega
    · rw [streamRun]
      simp only [initState, hdat, htot, run, pull]
      rfl
  · intro server2 hs0 hdata
    rw [streamRun, streamRun, hs0, run_agree server server2 hdata]

/-- C1 witness: a first page `[10, 20]` with total 3 followed by a page
`[30]` carrying junk total/offset/limit fields yields exactly 3 items and
terminates. -/
theorem stream_total_invariant_witness :
    (streamRun c1server 4 c1uri).1.length = 3 ∧
    (streamRun c1server 4 c1uri).2.2 = .done := by
  have hg : Good c1server c1uri 0 2 1 := by
    refine Good.step c1uri 0 2 1 (by decide) ?_ ?_ ?_
    · decide
    · decide
    · have he : 1 - (c1server (rebuild c1uri (0 + 2))).data.length = 0 := by
        decide
      rw [he]
      exact Good.done _ _ _
  exact (stream_total_invariant c1server c1uri 4 (by decide) (by decide)
    (by decide) hg).1

set_option maxRecDepth 8000

/-- C8: a first page reporting total = 250 and limit = 100 drives exactly
three fetches, at offsets 0, 100 and 200 — each follow-up URL rebuilt by
folding the query pairs into an ordered map and overwriting `_offset` with
the previous offset plus the limit — and yields exactly the 250 items in
original server order. -/
theorem stream_paging_sequence :
    streamRun c8server 251 c8uri =
      (List.range' 0 250, [c8uri, c8u1, c8u2], .done) ∧
    c8uri.query = [("_limit", "100"), ("_offset", "0")] ∧
    c8u1 = rebuild c8uri (0 + 100) ∧
    c8u1.query = [("_limit", "100"), ("_offset", "100")] ∧
    c8u2 = rebuild c8u1 (100 + 100) ∧
    c8u2.query = [("_limit", "100"), ("_offset", "200")] := by
  refine ⟨by decide, rfl, rfl, by decide, rfl, by decide⟩

end Modio
